import Mathlib

/-!
Verification of the TensorsToSegmentationCalculator routing logic
(mediapipe/calculators/tensor/tensors_to_segmentation_calculator.cc).

The calculator is shallowly embedded: compile-time build flags become a
`BuildConfig` record, the external converter backends and the platform
GPU probe become an `Env` record of per-invocation oracle results, and
the observable side effects (converter construction, delegate Convert
calls, mask emission) are recorded in an event trace.
-/

set_option maxHeartbeats 1000000

namespace MPSeg

/-- Status code carried by an error, following absl::Status codes. -/
inductive ErrCode
  | invalidArgument
  | failedPrecondition
  | unavailable
  | internal
deriving DecidableEq

/-- Error value: a status code plus a message. -/
structure Err where
  code : ErrCode
  msg : String
deriving DecidableEq

/-- Element type of a Tensor; the calculator only distinguishes kFloat32. -/
inductive ElementType
  | kFloat32
  | kUInt8
  | kInt32
deriving DecidableEq

/-- Model of mediapipe::Tensor as seen by this calculator: element type,
shape dimensions, and GPU residency (ready_on_gpu). -/
structure Tensor where
  elementType : ElementType
  dims : List Int
  readyOnGpu : Bool
deriving DecidableEq

/-- Activation enum from TensorsToSegmentationCalculatorOptions. -/
inductive Activation
  | NONE
  | SIGMOID
  | SOFTMAX
deriving DecidableEq

/-- GpuOrigin enum from the calculator options (opaque to the router). -/
inductive GpuOrigin
  | CONVENTIONAL
  | TOP_LEFT
deriving DecidableEq

/-- Calculator options fixed at open time. -/
structure TensorsToSegmentationCalculatorOptions where
  activation : Activation
  output_layer_index : Int
  gpu_origin : GpuOrigin
deriving DecidableEq

/-- Opaque converter instance token (the backends are external collaborators). -/
structure Converter where
  id : Nat
deriving DecidableEq

/-- Opaque output mask token (mask pixels are produced by the backends). -/
structure Mask where
  id : Nat
deriving DecidableEq

/-- Build configuration: which backends were compiled in.
gpuEnabled models !MEDIAPIPE_DISABLE_GPU, opencvEnabled models
!MEDIAPIPE_DISABLE_OPENCV. -/
structure BuildConfig where
  gpuEnabled : Bool
  opencvEnabled : Bool
deriving DecidableEq

/-- Backend variant selected per invocation. -/
inductive Variant
  | cpu
  | gpu
deriving DecidableEq

/-- Per-invocation environment: the platform GPU probe CanUseGpu() and the
oracle results of the external collaborators (converter constructors and
the Convert delegate of each variant). -/
structure Env where
  canUseGpu : Bool
  mkGpu : Except Err Converter
  mkCpu : Except Err Converter
  convertGpu : Except Err Mask
  convertCpu : Except Err Mask

/-- Mutable calculator state: loaded options plus the two lazily
constructed converter caches (cpu_converter_, gpu_converter_). -/
structure CalcState where
  options : TensorsToSegmentationCalculatorOptions
  cpuConverter : Option Converter
  gpuConverter : Option Converter
deriving DecidableEq

/-- Observable side effects of one invocation: converter construction
attempts, delegate Convert calls (with the width and height arguments
passed), and output mask emissions. -/
inductive Event
  | construct (v : Variant)
  | convertCall (v : Variant) (ts : List Tensor) (w h : Int)
  | emit (m : Mask)
deriving DecidableEq

/-- Modelled from the spec: GetHwcFromDims from
tensors_to_segmentation_utils (the utils translation unit is not under
src/). A 3-D shape is read as (height, width, channels); a 4-D shape is
read as (batch, height, width, channels) with batch required to be 1,
else InvalidArgument (unsupported batch size); other ranks give
InvalidArgument (unsupported tensor rank). -/
def GetHwcFromDims (dims : List Int) : Except Err (Int × Int × Int) :=
  match dims with
  | [h, w, c] => .ok (h, w, c)
  | [b, h, w, c] =>
      if b = 1 then .ok (h, w, c)
      else .error ⟨.invalidArgument, "unsupported batch size"⟩
  | _ => .error ⟨.invalidArgument, "unsupported tensor rank"⟩

/-- Error for RET_CHECK of the empty-batch validation; the status code is
modelled from the spec (the ret_check macro implementation is not under
src/). -/
def errEmptyBatch : Err := ⟨.invalidArgument, "empty tensor batch"⟩

/-- Error for the element-type validation RET_CHECK. -/
def errElementType : Err := ⟨.invalidArgument, "unsupported element type"⟩

/-- Error for the channel-count RET_CHECK_EQ of the activation switch. -/
def errChannelMismatch : Err := ⟨.invalidArgument, "channel count mismatch"⟩

/-- Error of RET_CHECK_FAIL in InitConverterIfNecessary when GPU support
is compiled out; the status code is modelled from the spec
(FailedPrecondition, backend not compiled in). -/
def errGpuConverterDisabled : Err :=
  ⟨.failedPrecondition,
   "Cannot initialize GPU converter because GPU processing is disabled."⟩

/-- Error of RET_CHECK_FAIL in InitConverterIfNecessary when OpenCV
support is compiled out. -/
def errCpuConverterDisabled : Err :=
  ⟨.failedPrecondition,
   "Cannot initialize OpenCV converter because OpenCV processing is disabled."⟩

/-- Error of RET_CHECK_FAIL in the GPU branch of Process when GPU support
is compiled out. -/
def errGpuProcessingDisabled : Err :=
  ⟨.failedPrecondition, "GPU processing disabled."⟩

/-- Error of RET_CHECK_FAIL in the CPU branch of Process when OpenCV
support is compiled out. -/
def errCpuProcessingDisabled : Err :=
  ⟨.failedPrecondition, "OpenCV processing disabled."⟩

/-- Channel count required by each activation, from the switch at
lines 215-225 of the source (NONE and SIGMOID check 1, SOFTMAX checks 2). -/
def requiredChannels : Activation → Int
  | .NONE => 1
  | .SIGMOID => 1
  | .SOFTMAX => 2

/-- Validation block of Process (source lines 207-226): the batch must be
non-empty, the first tensor must be kFloat32, its shape must pass
GetHwcFromDims, and the channel count must match the activation. -/
def validateInput (options : TensorsToSegmentationCalculatorOptions)
    (input_tensors : List Tensor) : Except Err Unit :=
  match input_tensors with
  | [] => .error errEmptyBatch
  | t0 :: _ =>
    if t0.elementType = .kFloat32 then
      match GetHwcFromDims t0.dims with
      | .error e => .error e
      | .ok hwc =>
        if hwc.2.2 = requiredChannels options.activation then .ok ()
        else .error errChannelMismatch
    else .error errElementType

/-- Backend selection of Process (source lines 196-205): use the GPU path
exactly when CanUseGpu() holds and at least one input tensor is already
resident on the GPU. -/
def selectBackend (canUseGpu : Bool) (input_tensors : List Tensor) : Variant :=
  if canUseGpu && input_tensors.any (fun t => t.readyOnGpu) then .gpu else .cpu

/-- InitConverterIfNecessary (source lines 115-144): on the GPU path,
construct gpu_converter_ if absent (RET_CHECK_FAIL when GPU support is
compiled out); on the CPU path, construct cpu_converter_ if absent
(RET_CHECK_FAIL when OpenCV support is compiled out). A construction
attempt is recorded as a construct event; a failed construction leaves
the cache field unassigned. -/
def InitConverterIfNecessary (cfg : BuildConfig) (env : Env) (use_gpu : Bool)
    (s : CalcState) : Except Err Unit × CalcState × List Event :=
  if use_gpu then
    if cfg.gpuEnabled then
      match s.gpuConverter with
      | some _ => (.ok (), s, [])
      | none =>
        match env.mkGpu with
        | .ok c => (.ok (), { s with gpuConverter := some c }, [.construct .gpu])
        | .error e => (.error e, s, [.construct .gpu])
    else (.error errGpuConverterDisabled, s, [])
  else
    if cfg.opencvEnabled then
      match s.cpuConverter with
      | some _ => (.ok (), s, [])
      | none =>
        match env.mkCpu with
        | .ok c => (.ok (), { s with cpuConverter := some c }, [.construct .cpu])
        | .error e => (.error e, s, [.construct .cpu])
    else (.error errCpuConverterDisabled, s, [])

/-- Output size computation of Process (source lines 231-237): the
output width and height default to the tensor width and height and are
overridden verbatim by the OUTPUT_SIZE packet when one is present. -/
def outputDims (output_size : Option (Int × Int)) (tensor_width tensor_height : Int) :
    Int × Int :=
  match output_size with
  | some sz => (sz.1, sz.2)
  | none => (tensor_width, tensor_height)

/-- Process (source lines 188-266). An absent TENSORS packet is a no-op
returning OkStatus. Otherwise: compute use_gpu from CanUseGpu() and the
residency scan, run the validation block, extract (height, width,
channels) via GetHwcFromDims, compute the output size (the OUTPUT_SIZE
packet verbatim if present, else the tensor width and height), then on
the selected path lazily construct the converter and delegate to its
Convert, emitting the produced mask. -/
def Process (cfg : BuildConfig) (env : Env) (input : Option (List Tensor))
    (output_size : Option (Int × Int)) (s : CalcState) :
    Except Err Unit × CalcState × List Event :=
  match input with
  | none => (.ok (), s, [])
  | some input_tensors =>
    let use_gpu := env.canUseGpu && input_tensors.any (fun t => t.readyOnGpu)
    match validateInput s.options input_tensors with
    | .error e => (.error e, s, [])
    | .ok _ =>
      match input_tensors with
      | [] => (.error errEmptyBatch, s, [])
      | t0 :: _ =>
        match GetHwcFromDims t0.dims with
        | .error e => (.error e, s, [])
        | .ok hwc =>
          let tensor_height := hwc.1
          let tensor_width := hwc.2.1
          let outDims : Int × Int := outputDims output_size tensor_width tensor_height
          if use_gpu then
            if cfg.gpuEnabled then
              match InitConverterIfNecessary cfg env use_gpu s with
              | (.error e, s1, tr) => (.error e, s1, tr)
              | (.ok _, s1, tr) =>
                match env.convertGpu with
                | .ok m =>
                  (.ok (), s1,
                   tr ++ [.convertCall .gpu input_tensors outDims.1 outDims.2,
                          .emit m])
                | .error e =>
                  (.error e, s1,
                   tr ++ [.convertCall .gpu input_tensors outDims.1 outDims.2])
            else (.error errGpuProcessingDisabled, s, [])
          else
            if cfg.opencvEnabled then
              match InitConverterIfNecessary cfg env use_gpu s with
              | (.error e, s1, tr) => (.error e, s1, tr)
              | (.ok _, s1, tr) =>
                match env.convertCpu with
                | .ok m =>
                  (.ok (), s1,
                   tr ++ [.convertCall .cpu input_tensors outDims.1 outDims.2,
                          .emit m])
                | .error e =>
                  (.error e, s1,
                   tr ++ [.convertCall .cpu input_tensors outDims.1 outDims.2])
            else (.error errCpuProcessingDisabled, s, [])

/-- LoadOptions (source lines 268-274): copy the graph options into the
calculator state; always succeeds. -/
def LoadOptions (opts : TensorsToSegmentationCalculatorOptions)
    (s : CalcState) : Except Err Unit × CalcState :=
  (.ok (), { s with options := opts })

/-- Open (source lines 180-186): set the timestamp offset (no observable
effect in this model) and load options. -/
def Open (opts : TensorsToSegmentationCalculatorOptions)
    (s : CalcState) : Except Err Unit × CalcState :=
  LoadOptions opts s

/-- Number of construction attempts of a given variant in a trace. -/
def countConstruct (v : Variant) : List Event → Nat
  | [] => 0
  | .construct v2 :: rest =>
      (if v2 = v then 1 else 0) + countConstruct v rest
  | _ :: rest => countConstruct v rest

/-- Number of delegate Convert calls of a given variant in a trace. -/
def countConvert (v : Variant) : List Event → Nat
  | [] => 0
  | .convertCall v2 _ _ _ :: rest =>
      (if v2 = v then 1 else 0) + countConvert v rest
  | _ :: rest => countConvert v rest

/-- Number of mask emissions in a trace. -/
def countEmit : List Event → Nat
  | [] => 0
  | .emit _ :: rest => 1 + countEmit rest
  | _ :: rest => countEmit rest

/-- Variant an effect event belongs to (emissions belong to neither). -/
def effectVariant : Event → Option Variant
  | .construct v => some v
  | .convertCall v _ _ _ => some v
  | .emit _ => none

/-- A trace holds no construction event. -/
def noConstruct : List Event → Bool
  | [] => true
  | .construct _ :: _ => false
  | _ :: rest => noConstruct rest

/-- Every construction event of the trace precedes every Convert call. -/
def constructsBeforeConverts : List Event → Bool
  | [] => true
  | .convertCall _ _ _ _ :: rest => noConstruct rest
  | _ :: rest => constructsBeforeConverts rest

/-- Converter constructor oracle of a variant. -/
def Env.mkResult (env : Env) : Variant → Except Err Converter
  | .cpu => env.mkCpu
  | .gpu => env.mkGpu

/-- Convert delegate oracle of a variant. -/
def Env.convertResult (env : Env) : Variant → Except Err Mask
  | .cpu => env.convertCpu
  | .gpu => env.convertGpu

/-- Whether the backend of a variant was compiled in. -/
def BuildConfig.enabledFor (cfg : BuildConfig) : Variant → Bool
  | .cpu => cfg.opencvEnabled
  | .gpu => cfg.gpuEnabled

/-- Cached converter field of a variant. -/
def CalcState.converterFor (s : CalcState) : Variant → Option Converter
  | .cpu => s.cpuConverter
  | .gpu => s.gpuConverter

/-- Boolean use_gpu flag a variant corresponds to. -/
def Variant.usesGpu : Variant → Bool
  | .cpu => false
  | .gpu => true

/-- Iterate Process n times with the same inputs and environment,
threading the state and concatenating the event traces. -/
def runN (cfg : BuildConfig) (env : Env) (input : Option (List Tensor))
    (output_size : Option (Int × Int)) : Nat → CalcState → CalcState × List Event
  | 0, s => (s, [])
  | Nat.succ n, s =>
    let r := Process cfg env input output_size s
    let rest := runN cfg env input output_size n r.2.1
    (rest.1, r.2.2 ++ rest.2)

/-- State with the cache field of a variant set to a converter. -/
def CalcState.withConverter (s : CalcState) (v : Variant) (c : Converter) :
    CalcState :=
  match v with
  | .cpu => { s with cpuConverter := some c }
  | .gpu => { s with gpuConverter := some c }

/-- RET_CHECK_FAIL error of InitConverterIfNecessary for a compiled-out
variant. -/
def notCompiledErr : Variant → Err
  | .cpu => errCpuConverterDisabled
  | .gpu => errGpuConverterDisabled

/-- RET_CHECK_FAIL error of the Process backend branch for a compiled-out
variant. -/
def processDisabledErr : Variant → Err
  | .cpu => errCpuProcessingDisabled
  | .gpu => errGpuProcessingDisabled

/-- Sequence of (width, height) argument pairs of the Convert calls in a
trace. -/
def convertArgs : List Event → List (Int × Int)
  | [] => []
  | .convertCall _ _ w h :: rest => (w, h) :: convertArgs rest
  | _ :: rest => convertArgs rest

/-- Inversion of a successful validation on a non-empty batch: the first
tensor is kFloat32 and its shape yields exactly the channel count the
activation requires. -/
theorem validateInput_cons_ok {opts : TensorsToSegmentationCalculatorOptions}
    {t0 : Tensor} {rest : List Tensor}
    (h : validateInput opts (t0 :: rest) = .ok ()) :
    t0.elementType = .kFloat32 ∧
    ∃ hh ww, GetHwcFromDims t0.dims =
      .ok (hh, ww, requiredChannels opts.activation) := by
  simp only [validateInput] at h
  split at h
  case isTrue hft =>
    refine ⟨hft, ?_⟩
    split at h
    case h_1 e heq => exact absurd h (by simp)
    case h_2 hwc heq =>
      split at h
      case isTrue hc =>
        exact ⟨hwc.1, hwc.2.1, by rw [heq, ← hc]⟩
      case isFalse hc => exact absurd h (by simp)
  case isFalse hft => exact absurd h (by simp)

/-- Backend selection as a Boolean equation on the use_gpu flag. -/
theorem selectBackend_eq_iff (b : Bool) (ts : List Tensor) (v : Variant) :
    selectBackend b ts = v ↔
      (b && ts.any fun t => t.readyOnGpu) = v.usesGpu := by
  cases v <;> unfold selectBackend Variant.usesGpu <;>
    cases hb : (b && ts.any fun t => t.readyOnGpu) <;> simp

/-- Construction counts add over trace concatenation. -/
theorem countConstruct_append (v : Variant) (l1 l2 : List Event) :
    countConstruct v (l1 ++ l2) = countConstruct v l1 + countConstruct v l2 := by
  induction l1 with
  | nil => simp [countConstruct]
  | cons e rest ih =>
    cases e <;> simp [countConstruct, ih] <;> omega

/-- Convert-call counts add over trace concatenation. -/
theorem countConvert_append (v : Variant) (l1 l2 : List Event) :
    countConvert v (l1 ++ l2) = countConvert v l1 + countConvert v l2 := by
  induction l1 with
  | nil => simp [countConvert]
  | cons e rest ih =>
    cases e <;> simp [countConvert, ih] <;> omega

/-- Setting the cache field of a variant keeps the loaded options. -/
theorem withConverter_options (s : CalcState) (v : Variant) (c : Converter) :
    (s.withConverter v c).options = s.options := by
  cases v <;> rfl

/-- Setting the cache field of a variant makes that cache hit. -/
theorem withConverter_converterFor (s : CalcState) (v : Variant) (c : Converter) :
    (s.withConverter v c).converterFor v = some c := by
  cases v <;> rfl

/-- Characterization of one invocation on a validated batch when the
cache of the selected variant is empty: the converter constructor runs;
on failure the error propagates with the cache still empty, on success
the converter is cached and its Convert delegate runs with the computed
output size, emitting the produced mask on success. -/
theorem Process_fresh (cfg : BuildConfig) (env : Env) (v : Variant)
    (t0 : Tensor) (rest : List Tensor) (outSize : Option (Int × Int))
    (s : CalcState) (hh ww cc : Int)
    (hval : validateInput s.options (t0 :: rest) = .ok ())
    (hhwc : GetHwcFromDims t0.dims = .ok (hh, ww, cc))
    (hsel : (env.canUseGpu && (t0 :: rest).any fun t => t.readyOnGpu) = v.usesGpu)
    (hen : cfg.enabledFor v = true)
    (hcache : s.converterFor v = none) :
    Process cfg env (some (t0 :: rest)) outSize s =
      match env.mkResult v with
      | .error e => (.error e, s, [.construct v])
      | .ok c =>
        match env.convertResult v with
        | .ok m =>
          (.ok (), s.withConverter v c,
           [.construct v,
            .convertCall v (t0 :: rest) (outputDims outSize ww hh).1
              (outputDims outSize ww hh).2,
            .emit m])
        | .error e =>
          (.error e, s.withConverter v c,
           [.construct v,
            .convertCall v (t0 :: rest) (outputDims outSize ww hh).1
              (outputDims outSize ww hh).2]) := by
  cases v with
  | cpu =>
    simp only [Variant.usesGpu] at hsel
    simp only [BuildConfig.enabledFor] at hen
    simp only [CalcState.converterFor] at hcache
    cases hmk : env.mkCpu with
    | error e =>
      simp only [Process, InitConverterIfNecessary]
      rw [hval, hhwc, hsel, hen, hcache, hmk]
      simp [Env.mkResult, Env.convertResult, CalcState.withConverter, hmk]
    | ok c =>
      cases hcv : env.convertCpu with
      | ok m =>
        simp only [Process, InitConverterIfNecessary]
        rw [hval, hhwc, hsel, hen, hcache, hmk, hcv]
        simp [Env.mkResult, Env.convertResult, CalcState.withConverter, hmk, hcv]
      | error e =>
        simp only [Process, InitConverterIfNecessary]
        rw [hval, hhwc, hsel, hen, hcache, hmk, hcv]
        simp [Env.mkResult, Env.convertResult, CalcState.withConverter, hmk, hcv]
  | gpu =>
    simp only [Variant.usesGpu] at hsel
    simp only [BuildConfig.enabledFor] at hen
    simp only [CalcState.converterFor] at hcache
    cases hmk : env.mkGpu with
    | error e =>
      simp only [Process, InitConverterIfNecessary]
      rw [hval, hhwc, hsel, hen, hcache, hmk]
      simp [Env.mkResult, Env.convertResult, CalcState.withConverter, hmk]
    | ok c =>
      cases hcv : env.convertGpu with
      | ok m =>
        simp only [Process, InitConverterIfNecessary]
        rw [hval, hhwc, hsel, hen, hcache, hmk, hcv]
        simp [Env.mkResult, Env.convertResult, CalcState.withConverter, hmk, hcv]
      | error e =>
        simp only [Process, InitConverterIfNecessary]
        rw [hval, hhwc, hsel, hen, hcache, hmk, hcv]
        simp [Env.mkResult, Env.convertResult, CalcState.withConverter, hmk, hcv]

/-- Characterization of one invocation on a validated batch when the
cache of the selected variant already holds a converter: no construction
happens, the state is unchanged, and the cached converter delegates with
the computed output size. -/
theorem Process_cached (cfg : BuildConfig) (env : Env) (v : Variant)
    (t0 : Tensor) (rest : List Tensor) (outSize : Option (Int × Int))
    (s : CalcState) (hh ww cc : Int) (c : Converter)
    (hval : validateInput s.options (t0 :: rest) = .ok ())
    (hhwc : GetHwcFromDims t0.dims = .ok (hh, ww, cc))
    (hsel : (env.canUseGpu && (t0 :: rest).any fun t => t.readyOnGpu) = v.usesGpu)
    (hen : cfg.enabledFor v = true)
    (hcache : s.converterFor v = some c) :
    Process cfg env (some (t0 :: rest)) outSize s =
      match env.convertResult v with
      | .ok m =>
        (.ok (), s,
         [.convertCall v (t0 :: rest) (outputDims outSize ww hh).1
            (outputDims outSize ww hh).2,
          .emit m])
      | .error e =>
        (.error e, s,
         [.convertCall v (t0 :: rest) (outputDims outSize ww hh).1
            (outputDims outSize ww hh).2]) := by
  cases v with
  | cpu =>
    simp only [Variant.usesGpu] at hsel
    simp only [BuildConfig.enabledFor] at hen
    simp only [CalcState.converterFor] at hcache
    cases hcv : env.convertCpu with
    | ok m =>
      simp only [Process, InitConverterIfNecessary]
      rw [hval, hhwc, hsel, hen, hcache, hcv]
      simp [Env.convertResult, hcv]
    | error e =>
      simp only [Process, InitConverterIfNecessary]
      rw [hval, hhwc, hsel, hen, hcache, hcv]
      simp [Env.convertResult, hcv]
  | gpu =>
    simp only [Variant.usesGpu] at hsel
    simp only [BuildConfig.enabledFor] at hen
    simp only [CalcState.converterFor] at hcache
    cases hcv : env.convertGpu with
    | ok m =>
      simp only [Process, InitConverterIfNecessary]
      rw [hval, hhwc, hsel, hen, hcache, hcv]
      simp [Env.convertResult, hcv]
    | error e =>
      simp only [Process, InitConverterIfNecessary]
      rw [hval, hhwc, hsel, hen, hcache, hcv]
      simp [Env.convertResult, hcv]

/-- Iterated invocations with the cache of the selected variant already
populated leave the state unchanged, construct nothing, and delegate once
per invocation. -/
theorem runN_cached (cfg : BuildConfig) (env : Env) (v : Variant)
    (t0 : Tensor) (rest : List Tensor) (outSize : Option (Int × Int))
    (c : Converter) (m : Mask) (hh ww cc : Int)
    (hhwc : GetHwcFromDims t0.dims = .ok (hh, ww, cc))
    (hsel : (env.canUseGpu && (t0 :: rest).any fun t => t.readyOnGpu) = v.usesGpu)
    (hen : cfg.enabledFor v = true)
    (hcv : env.convertResult v = .ok m) :
    ∀ n : Nat, ∀ s : CalcState,
      validateInput s.options (t0 :: rest) = .ok () →
      s.converterFor v = some c →
      (runN cfg env (some (t0 :: rest)) outSize n s).1 = s ∧
      countConstruct v (runN cfg env (some (t0 :: rest)) outSize n s).2 = 0 ∧
      countConvert v (runN cfg env (some (t0 :: rest)) outSize n s).2 = n := by
  intro n
  induction n with
  | zero => exact fun s hval hcache => ⟨rfl, rfl, rfl⟩
  | succ n ih =>
    intro s hval hcache
    have hP := Process_cached cfg env v t0 rest outSize s hh ww cc c hval hhwc
      hsel hen hcache
    rw [hcv] at hP
    obtain ⟨ih1, ih2, ih3⟩ := ih s hval hcache
    simp only [runN, hP]
    refine ⟨ih1, ?_, ?_⟩
    · rw [countConstruct_append, ih2]
      simp [countConstruct]
    · rw [countConvert_append, ih3]
      simp [countConvert]
      omega

/-- Iterated invocations whose construction attempt fails never populate
the cache of the selected variant: every invocation re-attempts
construction and no delegate call happens. -/
theorem runN_ctor_fail (cfg : BuildConfig) (env : Env) (v : Variant)
    (t0 : Tensor) (rest : List Tensor) (outSize : Option (Int × Int))
    (e : Err) (hh ww cc : Int)
    (hhwc : GetHwcFromDims t0.dims = .ok (hh, ww, cc))
    (hsel : (env.canUseGpu && (t0 :: rest).any fun t => t.readyOnGpu) = v.usesGpu)
    (hen : cfg.enabledFor v = true)
    (hmkF : env.mkResult v = .error e) :
    ∀ n : Nat, ∀ s : CalcState,
      validateInput s.options (t0 :: rest) = .ok () →
      s.converterFor v = none →
      (runN cfg env (some (t0 :: rest)) outSize n s).1 = s ∧
      countConstruct v (runN cfg env (some (t0 :: rest)) outSize n s).2 = n ∧
      countConvert v (runN cfg env (some (t0 :: rest)) outSize n s).2 = 0 := by
  intro n
  induction n with
  | zero => exact fun s hval hcache => ⟨rfl, rfl, rfl⟩
  | succ n ih =>
    intro s hval hcache
    have hP := Process_fresh cfg env v t0 rest outSize s hh ww cc hval hhwc
      hsel hen hcache
    rw [hmkF] at hP
    obtain ⟨ih1, ih2, ih3⟩ := ih s hval hcache
    simp only [runN, hP]
    refine ⟨ih1, ?_, ?_⟩
    · rw [countConstruct_append, ih2]
      simp [countConstruct]
      omega
    · rw [countConvert_append, ih3]
      simp [countConvert]

/-- C3: per router lifetime and per variant, the converter is constructed
at most once: starting from an empty cache, N invocations that select the
same variant (with construction and conversion succeeding) perform
exactly one construction call and N delegate Convert calls; and when
construction fails, the variant is not cached, so each of the N
invocations re-attempts construction and the cache stays empty. -/
theorem converter_constructed_once
    (cfg : BuildConfig) (env envF : Env) (v : Variant) (t0 : Tensor)
    (rest : List Tensor) (outSize : Option (Int × Int)) (s : CalcState)
    (c : Converter) (m : Mask) (e : Err) (n : Nat) (hh ww cc : Int)
    (hn : 1 ≤ n)
    (hval : validateInput s.options (t0 :: rest) = .ok ())
    (hhwc : GetHwcFromDims t0.dims = .ok (hh, ww, cc))
    (hsel : selectBackend env.canUseGpu (t0 :: rest) = v)
    (hselF : selectBackend envF.canUseGpu (t0 :: rest) = v)
    (hen : cfg.enabledFor v = true)
    (hmk : env.mkResult v = .ok c)
    (hcv : env.convertResult v = .ok m)
    (hmkF : envF.mkResult v = .error e)
    (hcache : s.converterFor v = none) :
    (countConstruct v (runN cfg env (some (t0 :: rest)) outSize n s).2 = 1 ∧
     countConvert v (runN cfg env (some (t0 :: rest)) outSize n s).2 = n) ∧
    (countConstruct v (runN cfg envF (some (t0 :: rest)) outSize n s).2 = n ∧
     (runN cfg envF (some (t0 :: rest)) outSize n s).1.converterFor v = none) := by
  rw [selectBackend_eq_iff] at hsel hselF
  obtain ⟨n', rfl⟩ : ∃ n', n = n' + 1 := ⟨n - 1, by omega⟩
  constructor
  · have hP := Process_fresh cfg env v t0 rest outSize s hh ww cc hval hhwc
      hsel hen hcache
    rw [hmk, hcv] at hP
    have hval1 : validateInput (s.withConverter v c).options (t0 :: rest) = .ok () := by
      rw [withConverter_options]
      exact hval
    obtain ⟨hr1, hr2, hr3⟩ := runN_cached cfg env v t0 rest outSize c m hh ww cc
      hhwc hsel hen hcv n' (s.withConverter v c) hval1
      (withConverter_converterFor s v c)
    simp only [runN, hP]
    constructor
    · rw [countConstruct_append, hr2]
      simp [countConstruct]
    · rw [countConvert_append, hr3]
      simp [countConvert]
      omega
  · obtain ⟨hr1, hr2, hr3⟩ := runN_ctor_fail cfg envF v t0 rest outSize e hh ww cc
      hhwc hselF hen hmkF (n' + 1) s hval hcache
    exact ⟨hr2, by rw [hr1]; exact hcache⟩

/-- Witness for C3. -/
theorem converter_constructed_once_witness :
    (1 ≤ 2) ∧
    validateInput (⟨⟨.SIGMOID, 0, .CONVENTIONAL⟩, none, none⟩ : CalcState).options
      [Tensor.mk .kFloat32 [2, 3, 1] false] = .ok () ∧
    GetHwcFromDims (Tensor.mk .kFloat32 [2, 3, 1] false).dims = .ok (2, 3, 1) ∧
    selectBackend false [Tensor.mk .kFloat32 [2, 3, 1] false] = .cpu ∧
    BuildConfig.enabledFor ⟨true, true⟩ .cpu = true ∧
    Env.mkResult ⟨false, .ok ⟨1⟩, .ok ⟨1⟩, .ok ⟨7⟩, .ok ⟨7⟩⟩ .cpu = .ok ⟨1⟩ ∧
    Env.convertResult ⟨false, .ok ⟨1⟩, .ok ⟨1⟩, .ok ⟨7⟩, .ok ⟨7⟩⟩ .cpu = .ok ⟨7⟩ ∧
    Env.mkResult ⟨false, .error ⟨.unavailable, "no backend"⟩,
        .error ⟨.unavailable, "no backend"⟩, .ok ⟨7⟩, .ok ⟨7⟩⟩ .cpu =
      .error ⟨.unavailable, "no backend"⟩ ∧
    ((countConstruct .cpu
        (runN ⟨true, true⟩ ⟨false, .ok ⟨1⟩, .ok ⟨1⟩, .ok ⟨7⟩, .ok ⟨7⟩⟩
          (some [Tensor.mk .kFloat32 [2, 3, 1] false]) none 2
          ⟨⟨.SIGMOID, 0, .CONVENTIONAL⟩, none, none⟩).2 = 1 ∧
      countConvert .cpu
        (runN ⟨true, true⟩ ⟨false, .ok ⟨1⟩, .ok ⟨1⟩, .ok ⟨7⟩, .ok ⟨7⟩⟩
          (some [Tensor.mk .kFloat32 [2, 3, 1] false]) none 2
          ⟨⟨.SIGMOID, 0, .CONVENTIONAL⟩, none, none⟩).2 = 2) ∧
     (countConstruct .cpu
        (runN ⟨true, true⟩ ⟨false, .error ⟨.unavailable, "no backend"⟩,
            .error ⟨.unavailable, "no backend"⟩, .ok ⟨7⟩, .ok ⟨7⟩⟩
          (some [Tensor.mk .kFloat32 [2, 3, 1] false]) none 2
          ⟨⟨.SIGMOID, 0, .CONVENTIONAL⟩, none, none⟩).2 = 2 ∧
      (runN ⟨true, true⟩ ⟨false, .error ⟨.unavailable, "no backend"⟩,
            .error ⟨.unavailable, "no backend"⟩, .ok ⟨7⟩, .ok ⟨7⟩⟩
          (some [Tensor.mk .kFloat32 [2, 3, 1] false]) none 2
          ⟨⟨.SIGMOID, 0, .CONVENTIONAL⟩, none, none⟩).1.converterFor .cpu =
        none)) :=
  ⟨by decide, rfl, rfl, rfl, rfl, rfl, rfl, rfl,
   converter_constructed_once ⟨true, true⟩
     ⟨false, .ok ⟨1⟩, .ok ⟨1⟩, .ok ⟨7⟩, .ok ⟨7⟩⟩
     ⟨false, .error ⟨.unavailable, "no backend"⟩,
      .error ⟨.unavailable, "no backend"⟩, .ok ⟨7⟩, .ok ⟨7⟩⟩
     .cpu (Tensor.mk .kFloat32 [2, 3, 1] false) [] none
     ⟨⟨.SIGMOID, 0, .CONVENTIONAL⟩, none, none⟩ ⟨1⟩ ⟨7⟩
     ⟨.unavailable, "no backend"⟩ 2 2 3 1
     (by decide) rfl rfl rfl rfl rfl rfl rfl rfl rfl⟩

/-- Characterization of one invocation whose validation fails: the error
propagates, the state is unchanged, and the trace is empty. -/
theorem Process_val_error (cfg : BuildConfig) (env : Env) (ts : List Tensor)
    (outSize : Option (Int × Int)) (s : CalcState) (e : Err)
    (hval : validateInput s.options ts = .error e) :
    Process cfg env (some ts) outSize s = (.error e, s, []) := by
  simp [Process, hval]

/-- Characterization of one invocation on a validated batch whose
selected backend is compiled out: the RET_CHECK_FAIL error of the Process
branch is returned before any acquisition, with the state unchanged and
an empty trace. -/
theorem Process_disabledBackend (cfg : BuildConfig) (env : Env) (v : Variant)
    (t0 : Tensor) (rest : List Tensor) (outSize : Option (Int × Int))
    (s : CalcState) (hh ww cc : Int)
    (hval : validateInput s.options (t0 :: rest) = .ok ())
    (hhwc : GetHwcFromDims t0.dims = .ok (hh, ww, cc))
    (hsel : (env.canUseGpu && (t0 :: rest).any fun t => t.readyOnGpu) = v.usesGpu)
    (hen : cfg.enabledFor v = false) :
    Process cfg env (some (t0 :: rest)) outSize s =
      (.error (processDisabledErr v), s, []) := by
  cases v with
  | cpu =>
    simp only [Variant.usesGpu] at hsel
    simp only [BuildConfig.enabledFor] at hen
    simp only [Process]
    rw [hval, hhwc, hsel, hen]
    simp [processDisabledErr]
  | gpu =>
    simp only [Variant.usesGpu] at hsel
    simp only [BuildConfig.enabledFor] at hen
    simp only [Process]
    rw [hval, hhwc, hsel, hen]
    simp [processDisabledErr]

/-- C1: with a non-empty batch, the selected backend is GPU exactly when
the platform GPU probe holds and some tensor in the batch is
device-resident; in every other combination it is CPU. -/
theorem selectBackend_gpu_iff (canUseGpu : Bool) (ts : List Tensor)
    (hne : ts ≠ []) :
    (selectBackend canUseGpu ts = .gpu ↔
      (canUseGpu = true ∧ ∃ t ∈ ts, t.readyOnGpu = true)) ∧
    (selectBackend canUseGpu ts = .cpu ↔
      ¬ (canUseGpu = true ∧ ∃ t ∈ ts, t.readyOnGpu = true)) := by
  clear hne
  unfold selectBackend
  cases hb : (canUseGpu && ts.any fun t => t.readyOnGpu) with
  | true =>
    rw [if_pos rfl]
    rw [Bool.and_eq_true, List.any_eq_true] at hb
    exact ⟨⟨fun _ => hb, fun _ => rfl⟩,
           ⟨fun hc => absurd hc (by decide), fun hnp => absurd hb hnp⟩⟩
  | false =>
    rw [if_neg (by decide)]
    have hnp : ¬ (canUseGpu = true ∧ ∃ t ∈ ts, t.readyOnGpu = true) := by
      rintro ⟨h1, t, ht, hg⟩
      subst h1
      have hany : ts.any (fun t => t.readyOnGpu) = true :=
        List.any_eq_true.2 ⟨t, ht, hg⟩
      rw [hany] at hb
      simp at hb
    exact ⟨⟨fun hc => absurd hc (by decide), fun hp => absurd hp hnp⟩,
           ⟨fun _ => hnp, fun _ => rfl⟩⟩

/-- Witness for C1. -/
theorem selectBackend_gpu_iff_witness :
    ([Tensor.mk .kFloat32 [2, 2, 1] true] ≠ ([] : List Tensor)) ∧
    (selectBackend true [Tensor.mk .kFloat32 [2, 2, 1] true] = .gpu ↔
      (true = true ∧
        ∃ t ∈ [Tensor.mk .kFloat32 [2, 2, 1] true], t.readyOnGpu = true)) :=
  ⟨by decide,
   (selectBackend_gpu_iff true [Tensor.mk .kFloat32 [2, 2, 1] true]
      (by decide)).1⟩

/-- C4: dimension extraction accepts rank-3 shapes as (H, W, C) and
rank-4 shapes with leading dimension 1 as (1, H, W, C); a rank-4 shape
with another leading dimension fails with InvalidArgument (unsupported
batch size), and every other rank fails with InvalidArgument
(unsupported tensor rank). -/
theorem GetHwcFromDims_spec :
    (∀ h w c : Int, GetHwcFromDims [h, w, c] = .ok (h, w, c)) ∧
    (∀ h w c : Int, GetHwcFromDims [1, h, w, c] = .ok (h, w, c)) ∧
    (∀ b h w c : Int, b ≠ 1 →
      GetHwcFromDims [b, h, w, c] =
        .error ⟨.invalidArgument, "unsupported batch size"⟩) ∧
    (∀ dims : List Int, dims.length ≠ 3 → dims.length ≠ 4 →
      GetHwcFromDims dims =
        .error ⟨.invalidArgument, "unsupported tensor rank"⟩) := by
  refine ⟨fun h w c => rfl, fun h w c => rfl, fun b h w c hb => ?_, ?_⟩
  · simp [GetHwcFromDims, hb]
  · intro dims h3 h4
    match dims with
    | [] => rfl
    | [a] => rfl
    | [a, b] => rfl
    | [a, b, c] => exact absurd rfl h3
    | [a, b, c, d] => exact absurd rfl h4
    | a :: b :: c :: d :: e :: rest => rfl

/-- Witness for C4. -/
theorem GetHwcFromDims_spec_witness :
    GetHwcFromDims [(5 : Int), 6, 7] = .ok (5, 6, 7) ∧
    GetHwcFromDims [(1 : Int), 5, 6, 7] = .ok (5, 6, 7) ∧
    ((2 : Int) ≠ 1 ∧
      GetHwcFromDims [(2 : Int), 5, 6, 7] =
        .error ⟨.invalidArgument, "unsupported batch size"⟩) ∧
    (([(5 : Int), 6] : List Int).length ≠ 3 ∧
      ([(5 : Int), 6] : List Int).length ≠ 4 ∧
      GetHwcFromDims [(5 : Int), 6] =
        .error ⟨.invalidArgument, "unsupported tensor rank"⟩) :=
  ⟨GetHwcFromDims_spec.1 5 6 7,
   GetHwcFromDims_spec.2.1 5 6 7,
   ⟨by decide, GetHwcFromDims_spec.2.2.1 2 5 6 7 (by decide)⟩,
   ⟨by decide, by decide,
    GetHwcFromDims_spec.2.2.2 [5, 6] (by decide) (by decide)⟩⟩

/-- C6: an invocation with no input tensor batch returns success, leaves
the state untouched, and produces no events at all (no validation
failure, no construction, no Convert call, no mask emission). -/
theorem Process_no_input_noop (cfg : BuildConfig) (env : Env)
    (output_size : Option (Int × Int)) (s : CalcState) :
    Process cfg env none output_size s = (.ok (), s, []) := rfl

/-- C10: opening always succeeds for every options value: option loading
only copies the configuration into the state, touching nothing else, so
no configuration error is detected at open time. -/
theorem Open_always_ok (opts : TensorsToSegmentationCalculatorOptions)
    (s : CalcState) :
    Open opts s = (.ok (), { s with options := opts }) := rfl

/-- C2: validation fails with InvalidArgument when the batch is empty,
when the first tensor is not 32-bit float, or when the channel count does
not match the activation (NONE and SIGMOID require 1, SOFTMAX requires
2); in each failing case Process returns that error with the state
unchanged and an empty trace, so no converter construction is observable. -/
theorem Process_validation_failure (cfg : BuildConfig) (env : Env)
    (output_size : Option (Int × Int)) (s : CalcState) :
    (Process cfg env (some []) output_size s = (.error errEmptyBatch, s, []) ∧
      errEmptyBatch.code = .invalidArgument) ∧
    (∀ t0 : Tensor, ∀ rest : List Tensor, t0.elementType ≠ .kFloat32 →
      Process cfg env (some (t0 :: rest)) output_size s =
        (.error errElementType, s, []) ∧
      errElementType.code = .invalidArgument) ∧
    (∀ t0 : Tensor, ∀ rest : List Tensor, ∀ hh ww cc : Int,
      t0.elementType = .kFloat32 →
      GetHwcFromDims t0.dims = .ok (hh, ww, cc) →
      cc ≠ requiredChannels s.options.activation →
      Process cfg env (some (t0 :: rest)) output_size s =
        (.error errChannelMismatch, s, []) ∧
      errChannelMismatch.code = .invalidArgument) := by
  refine ⟨⟨rfl, rfl⟩, fun t0 rest hft => ⟨?_, rfl⟩,
          fun t0 rest hh ww cc hft hg hcc => ⟨?_, rfl⟩⟩
  · have hv : validateInput s.options (t0 :: rest) = .error errElementType := by
      simp only [validateInput]
      rw [if_neg hft]
    simp [Process, hv]
  · have hv : validateInput s.options (t0 :: rest) = .error errChannelMismatch := by
      simp only [validateInput]
      rw [if_pos hft, hg]
      exact if_neg hcc
    simp [Process, hv]

/-- Witness for C2. -/
theorem Process_validation_failure_witness :
    (Tensor.mk .kUInt8 [2, 2, 1] false).elementType ≠ .kFloat32 ∧
    Process ⟨true, true⟩ ⟨false, .ok ⟨0⟩, .ok ⟨0⟩, .ok ⟨0⟩, .ok ⟨0⟩⟩
        (some [Tensor.mk .kUInt8 [2, 2, 1] false]) none
        ⟨⟨.SIGMOID, 0, .CONVENTIONAL⟩, none, none⟩ =
      (.error errElementType, ⟨⟨.SIGMOID, 0, .CONVENTIONAL⟩, none, none⟩, []) ∧
    errElementType.code = .invalidArgument :=
  ⟨by decide,
   ((Process_validation_failure ⟨true, true⟩
      ⟨false, .ok ⟨0⟩, .ok ⟨0⟩, .ok ⟨0⟩, .ok ⟨0⟩⟩ none
      ⟨⟨.SIGMOID, 0, .CONVENTIONAL⟩, none, none⟩).2.1
      (Tensor.mk .kUInt8 [2, 2, 1] false) [] (by decide)).1,
   rfl⟩

/-- C8: acquiring a converter variant whose backend was not compiled in
fails immediately with the FailedPrecondition error of the spec, with the
state unchanged and no construction attempt recorded. -/
theorem InitConverter_not_compiled (cfg : BuildConfig) (env : Env)
    (s : CalcState) (v : Variant) (h : cfg.enabledFor v = false) :
    InitConverterIfNecessary cfg env v.usesGpu s =
      (.error (notCompiledErr v), s, []) ∧
    (notCompiledErr v).code = .failedPrecondition := by
  cases v with
  | cpu =>
    refine ⟨?_, rfl⟩
    simp only [BuildConfig.enabledFor] at h
    simp [InitConverterIfNecessary, Variant.usesGpu, h, notCompiledErr]
  | gpu =>
    refine ⟨?_, rfl⟩
    simp only [BuildConfig.enabledFor] at h
    simp [InitConverterIfNecessary, Variant.usesGpu, h, notCompiledErr]

/-- Witness for C8. -/
theorem InitConverter_not_compiled_witness :
    BuildConfig.enabledFor ⟨false, true⟩ .gpu = false ∧
    InitConverterIfNecessary ⟨false, true⟩
        ⟨true, .ok ⟨0⟩, .ok ⟨0⟩, .ok ⟨0⟩, .ok ⟨0⟩⟩ (Variant.usesGpu .gpu)
        ⟨⟨.NONE, 0, .CONVENTIONAL⟩, none, none⟩ =
      (.error (notCompiledErr .gpu),
       ⟨⟨.NONE, 0, .CONVENTIONAL⟩, none, none⟩, []) ∧
    (notCompiledErr .gpu).code = .failedPrecondition :=
  ⟨rfl,
   (InitConverter_not_compiled ⟨false, true⟩
      ⟨true, .ok ⟨0⟩, .ok ⟨0⟩, .ok ⟨0⟩, .ok ⟨0⟩⟩
      ⟨⟨.NONE, 0, .CONVENTIONAL⟩, none, none⟩ .gpu rfl).1,
   (InitConverter_not_compiled ⟨false, true⟩
      ⟨true, .ok ⟨0⟩, .ok ⟨0⟩, .ok ⟨0⟩, .ok ⟨0⟩⟩
      ⟨⟨.NONE, 0, .CONVENTIONAL⟩, none, none⟩ .gpu rfl).2⟩

/-- C5: on every successful invocation the Convert delegate of the
selected converter receives exactly one (width, height) pair: the
OutputSize packet verbatim when one is supplied, and the own
(width, height) of the input tensor otherwise. -/
theorem Process_convert_dims (cfg : BuildConfig) (env : Env) (t0 : Tensor)
    (rest : List Tensor) (outSize : Option (Int × Int)) (s s' : CalcState)
    (tr : List Event) (hh ww cc : Int)
    (hhwc : GetHwcFromDims t0.dims = .ok (hh, ww, cc))
    (hrun : Process cfg env (some (t0 :: rest)) outSize s = (.ok (), s', tr)) :
    convertArgs tr = [outputDims outSize ww hh] ∧
    (∀ w h : Int, outSize = some (w, h) → outputDims outSize ww hh = (w, h)) ∧
    (outSize = none → outputDims outSize ww hh = (ww, hh)) := by
  refine ⟨?_, ?_, ?_⟩
  · cases hval : validateInput s.options (t0 :: rest) with
    | error e =>
      rw [Process_val_error cfg env _ outSize s e hval] at hrun
      exact absurd hrun (by simp)
    | ok u =>
      cases u
      have hselb : (env.canUseGpu && (t0 :: rest).any fun t => t.readyOnGpu) =
          (selectBackend env.canUseGpu (t0 :: rest)).usesGpu := by
        rw [← selectBackend_eq_iff]
      cases hen : cfg.enabledFor (selectBackend env.canUseGpu (t0 :: rest)) with
      | false =>
        rw [Process_disabledBackend cfg env _ t0 rest outSize s hh ww cc hval
          hhwc hselb hen] at hrun
        exact absurd hrun (by simp)
      | true =>
        cases hcache : s.converterFor (selectBackend env.canUseGpu (t0 :: rest)) with
        | some c =>
          rw [Process_cached cfg env _ t0 rest outSize s hh ww cc c hval hhwc
            hselb hen hcache] at hrun
          cases hcv : env.convertResult (selectBackend env.canUseGpu (t0 :: rest)) with
          | ok m =>
            rw [hcv] at hrun
            simp only [Prod.mk.injEq] at hrun
            rw [← hrun.2.2]
            simp [convertArgs]
          | error e =>
            rw [hcv] at hrun
            exact absurd hrun (by simp)
        | none =>
          rw [Process_fresh cfg env _ t0 rest outSize s hh ww cc hval hhwc
            hselb hen hcache] at hrun
          cases hmk : env.mkResult (selectBackend env.canUseGpu (t0 :: rest)) with
          | error e =>
            rw [hmk] at hrun
            exact absurd hrun (by simp)
          | ok c =>
            rw [hmk] at hrun
            cases hcv : env.convertResult (selectBackend env.canUseGpu (t0 :: rest)) with
            | ok m =>
              rw [hcv] at hrun
              simp only [Prod.mk.injEq] at hrun
              rw [← hrun.2.2]
              simp [convertArgs]
            | error e =>
              rw [hcv] at hrun
              exact absurd hrun (by simp)
  · rintro w h rfl
    rfl
  · rintro rfl
    rfl

/-- Witness for C5. -/
theorem Process_convert_dims_witness :
    GetHwcFromDims (Tensor.mk .kFloat32 [2, 3, 1] false).dims = .ok (2, 3, 1) ∧
    Process ⟨true, true⟩ ⟨false, .ok ⟨1⟩, .ok ⟨1⟩, .ok ⟨7⟩, .ok ⟨7⟩⟩
        (some [Tensor.mk .kFloat32 [2, 3, 1] false]) (some (64, 64))
        ⟨⟨.SIGMOID, 0, .CONVENTIONAL⟩, none, none⟩ =
      (.ok (), ⟨⟨.SIGMOID, 0, .CONVENTIONAL⟩, some ⟨1⟩, none⟩,
       [.construct .cpu,
        .convertCall .cpu [Tensor.mk .kFloat32 [2, 3, 1] false] 64 64,
        .emit ⟨7⟩]) ∧
    convertArgs
        [.construct .cpu,
         .convertCall .cpu [Tensor.mk .kFloat32 [2, 3, 1] false] 64 64,
         .emit ⟨7⟩] =
      [outputDims (some (64, 64)) 3 2] :=
  ⟨rfl, rfl,
   (Process_convert_dims ⟨true, true⟩ ⟨false, .ok ⟨1⟩, .ok ⟨1⟩, .ok ⟨7⟩, .ok ⟨7⟩⟩
      (Tensor.mk .kFloat32 [2, 3, 1] false) [] (some (64, 64))
      ⟨⟨.SIGMOID, 0, .CONVENTIONAL⟩, none, none⟩
      ⟨⟨.SIGMOID, 0, .CONVENTIONAL⟩, some ⟨1⟩, none⟩
      [.construct .cpu,
       .convertCall .cpu [Tensor.mk .kFloat32 [2, 3, 1] false] 64 64,
       .emit ⟨7⟩] 2 3 1 rfl rfl).1⟩

/-- Every effect event of an invocation belongs to the selected variant,
and every construction precedes every delegate call in the trace. -/
theorem Process_effects (cfg : BuildConfig) (env : Env) (ts : List Tensor)
    (outSize : Option (Int × Int)) (s : CalcState) :
    (∀ ev ∈ (Process cfg env (some ts) outSize s).2.2, ∀ u : Variant,
      effectVariant ev = some u → u = selectBackend env.canUseGpu ts) ∧
    constructsBeforeConverts (Process cfg env (some ts) outSize s).2.2 = true := by
  rcases ts with _ | ⟨t0, rest⟩
  · rw [Process_val_error cfg env [] outSize s errEmptyBatch rfl]
    simp [constructsBeforeConverts]
  · cases hval : validateInput s.options (t0 :: rest) with
    | error e =>
      rw [Process_val_error cfg env _ outSize s e hval]
      simp [constructsBeforeConverts]
    | ok u =>
      cases u
      obtain ⟨hft, hhv, wwv, hwc_eq⟩ := validateInput_cons_ok hval
      have hselb : (env.canUseGpu && (t0 :: rest).any fun t => t.readyOnGpu) =
          (selectBackend env.canUseGpu (t0 :: rest)).usesGpu := by
        rw [← selectBackend_eq_iff]
      cases hen : cfg.enabledFor (selectBackend env.canUseGpu (t0 :: rest)) with
      | false =>
        rw [Process_disabledBackend cfg env _ t0 rest outSize s hhv wwv _ hval
          hwc_eq hselb hen]
        simp [constructsBeforeConverts]
      | true =>
        cases hcache : s.converterFor (selectBackend env.canUseGpu (t0 :: rest)) with
        | some c =>
          rw [Process_cached cfg env _ t0 rest outSize s hhv wwv _ c hval hwc_eq
            hselb hen hcache]
          cases hcv : env.convertResult (selectBackend env.canUseGpu (t0 :: rest)) with
          | ok m =>
            constructor
            · simp [effectVariant, eq_comm]
            · simp [constructsBeforeConverts, noConstruct]
          | error e =>
            constructor
            · simp [effectVariant, eq_comm]
            · simp [constructsBeforeConverts, noConstruct]
        | none =>
          rw [Process_fresh cfg env _ t0 rest outSize s hhv wwv _ hval hwc_eq
            hselb hen hcache]
          cases hmk : env.mkResult (selectBackend env.canUseGpu (t0 :: rest)) with
          | error e =>
            constructor
            · simp [effectVariant, eq_comm]
            · simp [constructsBeforeConverts, noConstruct]
          | ok c =>
            cases hcv : env.convertResult (selectBackend env.canUseGpu (t0 :: rest)) with
            | ok m =>
              constructor
              · simp [effectVariant, eq_comm]
              · simp [constructsBeforeConverts, noConstruct]
            | error e =>
              constructor
              · simp [effectVariant, eq_comm]
              · simp [constructsBeforeConverts, noConstruct]

/-- C7: per invocation with a tensor batch, validation comes first — a
validation failure returns that error with no state change and no effect
events at all — and the effects of a passing invocation respect the
pipeline order: every construction or Convert event belongs to the
variant chosen by backend selection (from the platform flag and the
residency scan of the batch), and every construction precedes every
Convert call. -/
theorem Process_step_order (cfg : BuildConfig) (env : Env) (ts : List Tensor)
    (outSize : Option (Int × Int)) (s : CalcState) :
    (∀ e : Err, validateInput s.options ts = .error e →
      Process cfg env (some ts) outSize s = (.error e, s, [])) ∧
    (∀ ev ∈ (Process cfg env (some ts) outSize s).2.2, ∀ u : Variant,
      effectVariant ev = some u → u = selectBackend env.canUseGpu ts) ∧
    constructsBeforeConverts (Process cfg env (some ts) outSize s).2.2 = true :=
  ⟨fun e he => Process_val_error cfg env ts outSize s e he,
   (Process_effects cfg env ts outSize s).1,
   (Process_effects cfg env ts outSize s).2⟩

/-- Witness for C7. -/
theorem Process_step_order_witness :
    validateInput
        (⟨⟨.SOFTMAX, 0, .CONVENTIONAL⟩, none, none⟩ : CalcState).options
        [Tensor.mk .kFloat32 [2, 3, 1] false] = .error errChannelMismatch ∧
    Process ⟨true, true⟩ ⟨true, .ok ⟨1⟩, .ok ⟨1⟩, .ok ⟨7⟩, .ok ⟨7⟩⟩
        (some [Tensor.mk .kFloat32 [2, 3, 1] false]) none
        ⟨⟨.SOFTMAX, 0, .CONVENTIONAL⟩, none, none⟩ =
      (.error errChannelMismatch,
       ⟨⟨.SOFTMAX, 0, .CONVENTIONAL⟩, none, none⟩, []) :=
  ⟨rfl,
   (Process_step_order ⟨true, true⟩ ⟨true, .ok ⟨1⟩, .ok ⟨1⟩, .ok ⟨7⟩, .ok ⟨7⟩⟩
      [Tensor.mk .kFloat32 [2, 3, 1] false] none
      ⟨⟨.SOFTMAX, 0, .CONVENTIONAL⟩, none, none⟩).1 errChannelMismatch rfl⟩

/-- C9: only the cache field of the selected variant can change. A
CPU-selected invocation keeps the GPU cache and the options intact,
performs no GPU construction or GPU Convert call, and never reads the GPU
cache — running it from a state whose GPU cache is replaced by any value
gives the same result, same trace, and the same state except for that
untouched field. Symmetrically for a GPU-selected invocation and the CPU
cache. -/
theorem Process_frame (cfg : BuildConfig) (env : Env) (ts : List Tensor)
    (outSize : Option (Int × Int)) (s : CalcState)
    (g c : Option Converter) :
    (selectBackend env.canUseGpu ts = .cpu →
      (Process cfg env (some ts) outSize s).2.1.gpuConverter = s.gpuConverter ∧
      (Process cfg env (some ts) outSize s).2.1.options = s.options ∧
      countConstruct .gpu (Process cfg env (some ts) outSize s).2.2 = 0 ∧
      countConvert .gpu (Process cfg env (some ts) outSize s).2.2 = 0 ∧
      Process cfg env (some ts) outSize { s with gpuConverter := g } =
        ((Process cfg env (some ts) outSize s).1,
         { (Process cfg env (some ts) outSize s).2.1 with gpuConverter := g },
         (Process cfg env (some ts) outSize s).2.2)) ∧
    (selectBackend env.canUseGpu ts = .gpu →
      (Process cfg env (some ts) outSize s).2.1.cpuConverter = s.cpuConverter ∧
      (Process cfg env (some ts) outSize s).2.1.options = s.options ∧
      countConstruct .cpu (Process cfg env (some ts) outSize s).2.2 = 0 ∧
      countConvert .cpu (Process cfg env (some ts) outSize s).2.2 = 0 ∧
      Process cfg env (some ts) outSize { s with cpuConverter := c } =
        ((Process cfg env (some ts) outSize s).1,
         { (Process cfg env (some ts) outSize s).2.1 with cpuConverter := c },
         (Process cfg env (some ts) outSize s).2.2)) := by
  constructor
  · intro hsel
    have hselb := (selectBackend_eq_iff env.canUseGpu ts .cpu).1 hsel
    rcases ts with _ | ⟨t0, rest⟩
    · rw [Process_val_error cfg env [] outSize s errEmptyBatch rfl,
          Process_val_error cfg env [] outSize { s with gpuConverter := g }
            errEmptyBatch rfl]
      simp [countConstruct, countConvert]
    · cases hval : validateInput s.options (t0 :: rest) with
      | error e =>
        rw [Process_val_error cfg env _ outSize s e hval,
            Process_val_error cfg env _ outSize { s with gpuConverter := g } e hval]
        simp [countConstruct, countConvert]
      | ok u =>
        cases u
        obtain ⟨hft, hhv, wwv, hwc_eq⟩ := validateInput_cons_ok hval
        cases hen : cfg.enabledFor Variant.cpu with
        | false =>
          rw [Process_disabledBackend cfg env .cpu t0 rest outSize s hhv wwv _
                hval hwc_eq hselb hen,
              Process_disabledBackend cfg env .cpu t0 rest outSize
                { s with gpuConverter := g } hhv wwv _ hval hwc_eq hselb hen]
          simp [countConstruct, countConvert]
        | true =>
          cases hcache : s.cpuConverter with
          | some c0 =>
            rw [Process_cached cfg env .cpu t0 rest outSize s hhv wwv _ c0 hval
                  hwc_eq hselb hen hcache,
                Process_cached cfg env .cpu t0 rest outSize
                  ⟨s.options, some c0, g⟩ hhv wwv _ c0 hval hwc_eq hselb
                  hen rfl]
            cases hcv : env.convertResult Variant.cpu <;>
              simp [countConstruct, countConvert, hcache]
          | none =>
            rw [Process_fresh cfg env .cpu t0 rest outSize s hhv wwv _ hval
                  hwc_eq hselb hen hcache,
                Process_fresh cfg env .cpu t0 rest outSize
                  ⟨s.options, none, g⟩ hhv wwv _ hval hwc_eq hselb hen
                  rfl]
            cases hmk : env.mkResult Variant.cpu with
            | error e => simp [countConstruct, countConvert, hcache]
            | ok c1 =>
              cases hcv : env.convertResult Variant.cpu <;>
                simp [countConstruct, countConvert, CalcState.withConverter, hcache]
  · intro hsel
    have hselb := (selectBackend_eq_iff env.canUseGpu ts .gpu).1 hsel
    rcases ts with _ | ⟨t0, rest⟩
    · rw [Process_val_error cfg env [] outSize s errEmptyBatch rfl,
          Process_val_error cfg env [] outSize { s with cpuConverter := c }
            errEmptyBatch rfl]
      simp [countConstruct, countConvert]
    · cases hval : validateInput s.options (t0 :: rest) with
      | error e =>
        rw [Process_val_error cfg env _ outSize s e hval,
            Process_val_error cfg env _ outSize { s with cpuConverter := c } e hval]
        simp [countConstruct, countConvert]
      | ok u =>
        cases u
        obtain ⟨hft, hhv, wwv, hwc_eq⟩ := validateInput_cons_ok hval
        cases hen : cfg.enabledFor Variant.gpu with
        | false =>
          rw [Process_disabledBackend cfg env .gpu t0 rest outSize s hhv wwv _
                hval hwc_eq hselb hen,
              Process_disabledBackend cfg env .gpu t0 rest outSize
                { s with cpuConverter := c } hhv wwv _ hval hwc_eq hselb hen]
          simp [countConstruct, countConvert]
        | true =>
          cases hcache : s.gpuConverter with
          | some c0 =>
            rw [Process_cached cfg env .gpu t0 rest outSize s hhv wwv _ c0 hval
                  hwc_eq hselb hen hcache,
                Process_cached cfg env .gpu t0 rest outSize
                  ⟨s.options, c, some c0⟩ hhv wwv _ c0 hval hwc_eq hselb
                  hen rfl]
            cases hcv : env.convertResult Variant.gpu <;>
              simp [countConstruct, countConvert, hcache]
          | none =>
            rw [Process_fresh cfg env .gpu t0 rest outSize s hhv wwv _ hval
                  hwc_eq hselb hen hcache,
                Process_fresh cfg env .gpu t0 rest outSize
                  ⟨s.options, c, none⟩ hhv wwv _ hval hwc_eq hselb hen
                  rfl]
            cases hmk : env.mkResult Variant.gpu with
            | error e => simp [countConstruct, countConvert, hcache]
            | ok c1 =>
              cases hcv : env.convertResult Variant.gpu <;>
                simp [countConstruct, countConvert, CalcState.withConverter, hcache]

/-- Witness for C9. -/
theorem Process_frame_witness :
    selectBackend false [Tensor.mk .kFloat32 [2, 3, 1] false] = .cpu ∧
    (Process ⟨true, true⟩ ⟨false, .ok ⟨1⟩, .ok ⟨1⟩, .ok ⟨7⟩, .ok ⟨7⟩⟩
        (some [Tensor.mk .kFloat32 [2, 3, 1] false]) none
        ⟨⟨.SIGMOID, 0, .CONVENTIONAL⟩, none, some ⟨9⟩⟩).2.1.gpuConverter =
      (⟨⟨.SIGMOID, 0, .CONVENTIONAL⟩, none, some ⟨9⟩⟩ : CalcState).gpuConverter :=
  ⟨rfl,
   ((Process_frame ⟨true, true⟩ ⟨false, .ok ⟨1⟩, .ok ⟨1⟩, .ok ⟨7⟩, .ok ⟨7⟩⟩
      [Tensor.mk .kFloat32 [2, 3, 1] false] none
      ⟨⟨.SIGMOID, 0, .CONVENTIONAL⟩, none, some ⟨9⟩⟩ none none).1 rfl).1⟩

end MPSeg
